import Mathlib

/-!
Shallow embedding of the conformance-checking dispatch layer
(`pm4py/conformance.py`) and of the linear-programming solver wrapper
(`pm4py/util/lp/variants/scipy_solver.py`).

The external algorithm engines (token-based replay, alignment search,
footprint discovery and comparison, log-skeleton checking, model
conversion, the generic LP backend) are not part of the two source
files; they are modelled as a record of unconstrained pure functions
(`Engines`, `LPBackend`).  A few leaf utilities whose code is outside
the source tree but whose behaviour the spec describes (the property
normalizer, the dataframe column check, the variant promotion helper
and the temporal-profile conformance engine) are modelled from the
spec; their doc comments say so explicitly.

Python runtime behaviour is embedded as follows: machine floats of the
source carry exact numeric values, so they are modelled as `Rat`
(every comparison the source performs on them is an exact equality or
ordering); exceptions are modelled by `Except PMError`; the exact
runtime class of an argument (the source dispatches with
`type(x) is C` checks) is modelled by the constructor of an inductive
type.
-/

namespace Pm4py

/-- Attribute values stored in events: strings (activity names, case
identifiers) or numbers (timestamps). -/
inductive AttrVal where
  | str : String → AttrVal
  | num : Rat → AttrVal
deriving DecidableEq, Repr

/-- An event is a mapping from attribute names to values
(`pm4py.objects.log.obj.Event`), modelled as an association list. -/
structure Event where
  attrs : List (String × AttrVal)
deriving DecidableEq, Repr

/-- Dictionary lookup `e[key]`; Python raises `KeyError` when the key
is missing, modelled by `none`. -/
def Event.get (e : Event) (key : String) : Option AttrVal :=
  (e.attrs.find? (fun p => p.1 == key)).map (fun p => p.2)

/-- A trace: an ordered sequence of events. -/
abbrev Trace := List Event

/-- A pandas dataframe: the column names plus the rows (each row is an
attribute mapping). -/
structure DataFrame where
  columns : List String
  rows : List Event
deriving DecidableEq, Repr

/-- The runtime shape of the `log` argument of the public entry
points.  Each constructor tags the exact runtime class of the Python
object, so that the source's exact-type membership test
`type(log) in [pd.DataFrame, EventLog, EventStream]` is expressible:
`subDataFrame` and `subEventLog` are instances of proper subclasses of
the accepted classes, whose `type(...)` is the subclass and therefore
not a member of the list. -/
inductive LogArg where
  | dataFrame : DataFrame → LogArg
  | eventLog : List Trace → LogArg
  | eventStream : List Event → LogArg
  | subDataFrame : DataFrame → LogArg
  | subEventLog : List Trace → LogArg
  | otherObj : String → LogArg
deriving DecidableEq, Repr

/-- Errors raised by the embedded code.  `exn` is a plain
`raise Exception(msg)`; `schemaError` is the missing-column failure of
the dataframe validation (spec taxonomy `SchemaError`);
`unsupportedModel` is the failure of model conversion (spec taxonomy
`UnsupportedModelError`); `keyError` / `indexError` are the Python
lookup failures. -/
inductive PMError where
  | exn : String → PMError
  | schemaError : String → PMError
  | unsupportedModel : PMError
  | keyError : String → PMError
  | indexError : PMError
deriving DecidableEq, Repr

/-- `xes_constants.DEFAULT_NAME_KEY`. -/
def DEFAULT_NAME_KEY : String := "concept:name"

/-- `xes_constants.DEFAULT_TIMESTAMP_KEY`. -/
def DEFAULT_TIMESTAMP_KEY : String := "time:timestamp"

/-- `xes_constants.DEFAULT_TRACEID_KEY`. -/
def DEFAULT_TRACEID_KEY : String := "case:concept:name"

/-- Modelled from the spec: the Property Normalizer configuration
record (spec 4.1) carrying the three configured attribute names plus
the algorithm-specific extras the callers may set (a parallelism flag,
a tolerance multiplier), initially unset. -/
structure Props where
  activity_key : String
  timestamp_key : String
  case_id_key : String
  multiprocessing : Option Bool
  zeta : Option Rat
deriving DecidableEq, Repr

/-- Modelled from the spec: `get_properties` builds the configuration
record from the caller-supplied attribute names (spec 4.1). -/
def get_properties (_log : LogArg) (activity_key timestamp_key case_id_key : String) : Props :=
  ⟨activity_key, timestamp_key, case_id_key, none, none⟩

/-- A transition of a procedural model; it optionally carries an
activity label (`None` for silent transitions). -/
structure Transition where
  name : String
  label : Option String
deriving DecidableEq, Repr

/-- A procedural model: places and transitions (spec data model).  The
dispatch layer reads only `transitions` and their labels. -/
structure PetriNet where
  places : List String
  transitions : List Transition
deriving DecidableEq, Repr

/-- A marking: a token distribution over places (spec data model);
opaque to the dispatch layer. -/
structure Marking where
  tokens : List (String × Nat)
deriving DecidableEq, Repr

/-- Modelled from the spec: the hierarchical block-structured model, a
tree whose leaves are activity labels (or silent) and whose internal
nodes are control operators (spec data model).  The dispatch layer
never inspects its structure. -/
inductive ProcessTree where
  | leaf : Option String → ProcessTree
  | seq : List ProcessTree → ProcessTree
  | xor : List ProcessTree → ProcessTree
  | par : List ProcessTree → ProcessTree
  | loop : List ProcessTree → ProcessTree
deriving Repr

/-- A frequency graph (directly-follows graph): a multiset of ordered
activity pairs; opaque to the dispatch layer. -/
abbrev FreqGraph := List ((String × String) × Nat)

/-- The runtime shape of one element of the variadic model-argument
list, tagged with the exact runtime class so that the source's
`type(args[0]) is PetriNet` / `is dict` / `is Counter` /
`is ProcessTree` dispatch is expressible. -/
inductive MArg where
  | net : PetriNet → MArg
  | marking : Marking → MArg
  | dict : FreqGraph → MArg
  | counter : FreqGraph → MArg
  | tree : ProcessTree → MArg
  | other : String → MArg

/-- One per-trace record returned by the token-based replay engine;
only the key the dispatch layer reads (`trace_is_fit`) is modelled. -/
structure TBRResult where
  trace_is_fit : Bool
deriving DecidableEq, Repr

/-- One per-trace record returned by the alignment engines; only the
key the dispatch layer reads (`fitness`) is modelled. -/
structure AlignResult where
  fitness : Rat
deriving DecidableEq, Repr

/-- The dictionary returned by the replay-fitness evaluator. -/
structure FitnessResult where
  average_trace_fitness : Rat
  percentage_of_fitting_traces : Rat
deriving DecidableEq, Repr

/-- The variant selector passed to the replay-fitness evaluator. -/
inductive FitnessVariant where
  | token_based
  | alignment_based
deriving DecidableEq, Repr

/-- The variant selector passed to the precision evaluator. -/
inductive PrecisionVariant where
  | etconformance_token
  | align_etconformance
deriving DecidableEq, Repr

/-- The variant selector passed to the footprints conformance
engine. -/
inductive FPVariant where
  | trace_extensive
  | log_extensive
deriving DecidableEq, Repr

/-- A declarative log skeleton: the six constraint families (spec data
model); opaque to the dispatch layer, which forwards it unchanged. -/
structure LogSkeleton where
  directly_follows : List ((String × String) × (Nat × Nat))
  always_before : List (String × String)
  always_after : List (String × String)
  equivalence : List (String × String)
  never_together : List (String × String)
  activ_occurrences : List (String × List Nat)
deriving DecidableEq, Repr

/-- A per-case set of violated constraint-instance markers returned by
the log-skeleton engine; opaque to the dispatch layer. -/
abbrev SkelViolations := List String

/-- Python values flowing through the footprint bridge
(`__convert_to_fp` / `conformance_diagnostics_footprints`): tuples,
lists, dictionaries, booleans, plus the raw inputs of footprint
discovery (an event log or a process tree). -/
inductive FPObj where
  | tupleO : List FPObj → FPObj
  | listO : List FPObj → FPObj
  | dictO : List (String × FPObj) → FPObj
  | boolO : Bool → FPObj
  | logO : List Trace → FPObj
  | treeO : ProcessTree → FPObj

/-- Indexing `obj[i]` for an integer index.  Lists and tuples index
positionally (`IndexError` past the end); every other shape fails
(a dict raises `KeyError`, the rest `TypeError`), collapsed to
`indexError` here since the dispatch layer only propagates it. -/
def FPObj.getIdx : FPObj → Nat → Except PMError FPObj
  | FPObj.listO l, i =>
    match l[i]? with
    | some v => Except.ok v
    | none => Except.error PMError.indexError
  | FPObj.tupleO l, i =>
    match l[i]? with
    | some v => Except.ok v
    | none => Except.error PMError.indexError
  | _, _ => Except.error PMError.indexError

/-- Lookup `obj[key]` for a string key.  Dictionaries look the key up
(`KeyError` when missing); every other shape fails, collapsed to
`keyError` here since the dispatch layer only propagates it. -/
def FPObj.getKey : FPObj → String → Except PMError FPObj
  | FPObj.dictO d, k =>
    match d.find? (fun p => p.1 == k) with
    | some p => Except.ok p.2
    | none => Except.error (PMError.keyError k)
  | _, k => Except.error (PMError.keyError k)

/-- Python truthiness of the values of the footprint bridge:
`not fp_conf_res[key]` in the source evaluates the value as a
boolean.  Containers are truthy iff non-empty; other objects are
truthy. -/
def FPObj.truthy : FPObj → Bool
  | FPObj.boolO b => b
  | FPObj.listO l => !l.isEmpty
  | FPObj.tupleO l => !l.isEmpty
  | FPObj.dictO d => !d.isEmpty
  | FPObj.logO l => !l.isEmpty
  | FPObj.treeO _ => true

/-- The external algorithm engines consumed by the dispatch layer
(spec: out-of-scope collaborators behind narrow interfaces), modelled
as unconstrained pure functions.  Per-trace engines return one result
record per trace of the log they are given, in order. -/
structure Engines where
  token_replay : LogArg → PetriNet → Marking → Marking → Props → List TBRResult
  align_apply : LogArg → PetriNet → MArg → MArg → Props → List AlignResult
  align_apply_multiprocessing : LogArg → PetriNet → MArg → MArg → Props → List AlignResult
  dfg_align_apply : LogArg → FreqGraph → MArg → MArg → Props → List AlignResult
  tree_align_apply : LogArg → ProcessTree → Props → List AlignResult
  tree_align_apply_multiprocessing : LogArg → ProcessTree → Props → List AlignResult
  replay_fitness_apply : LogArg → PetriNet → Marking → Marking → FitnessVariant → Props → FitnessResult
  precision_apply : LogArg → PetriNet → Marking → Marking → PrecisionVariant → Props → Rat
  log_skeleton_apply : LogArg → LogSkeleton → Props → List SkelViolations
  discover_footprints : List FPObj → FPObj
  footprints_conformance_apply : FPObj → FPObj → FPVariant → FPObj
  convert_to_process_tree : List MArg → Option ProcessTree
  convert_to_petri_net : List MArg → Option (PetriNet × Marking × Marking)

/-- The exact-type membership test
`type(log) in [pd.DataFrame, EventLog, EventStream]` guarding every
public entry point. -/
def log_type_ok : LogArg → Bool
  | LogArg.dataFrame _ => true
  | LogArg.eventLog _ => true
  | LogArg.eventStream _ => true
  | _ => false

/-- The message of the exception raised for a log of unrecognized
shape. -/
def TRADITIONAL_LOG_MSG : String :=
  "the method can be applied only to a traditional event log!"

/-- `check_is_pandas_dataframe` (an `isinstance`-based test, so it
also accepts dataframe subclasses). -/
def check_is_pandas_dataframe : LogArg → Bool
  | LogArg.dataFrame _ => true
  | LogArg.subDataFrame _ => true
  | _ => false

/-- Modelled from the spec: `check_pandas_dataframe_columns` validates
that the three configured columns exist in a table-shaped log, failing
with a `SchemaError` naming the missing column (spec 4.1). -/
def check_pandas_dataframe_columns (log : LogArg) (activity_key timestamp_key case_id_key : String) : Except PMError Unit :=
  match log with
  | LogArg.dataFrame df =>
    if !(df.columns.contains activity_key) then Except.error (PMError.schemaError activity_key)
    else if !(df.columns.contains timestamp_key) then Except.error (PMError.schemaError timestamp_key)
    else if !(df.columns.contains case_id_key) then Except.error (PMError.schemaError case_id_key)
    else Except.ok ()
  | LogArg.subDataFrame df =>
    if !(df.columns.contains activity_key) then Except.error (PMError.schemaError activity_key)
    else if !(df.columns.contains timestamp_key) then Except.error (PMError.schemaError timestamp_key)
    else if !(df.columns.contains case_id_key) then Except.error (PMError.schemaError case_id_key)
    else Except.ok ()
  | _ => Except.ok ()

/-- The validation prelude repeated verbatim at the top of every
public entry point of `conformance.py`: the exact-type log-shape test,
then the dataframe column check. -/
def log_prelude (log : LogArg) (activity_key timestamp_key case_id_key : String) : Except PMError Unit :=
  if !(log_type_ok log) then Except.error (PMError.exn TRADITIONAL_LOG_MSG)
  else if check_is_pandas_dataframe log then
    check_pandas_dataframe_columns log activity_key timestamp_key case_id_key
  else Except.ok ()

/-- `conformance_diagnostics_token_based_replay`: validate the log,
build the configuration, forward to the replay engine. -/
def conformance_diagnostics_token_based_replay (E : Engines) (log : LogArg)
    (petri_net : PetriNet) (initial_marking final_marking : Marking)
    (activity_key timestamp_key case_id_key : String) :
    Except PMError (List TBRResult) :=
  match log_prelude log activity_key timestamp_key case_id_key with
  | Except.error e => Except.error e
  | Except.ok _ =>
    let properties := get_properties log activity_key timestamp_key case_id_key
    Except.ok (E.token_replay log petri_net initial_marking final_marking properties)

/-- The final block of `conformance_diagnostics_alignments`: when no
direct shape matched, try to convert the arguments to a procedural
model (failure of the conversion is the spec's
`UnsupportedModelError`) and run the (parallel, when requested)
Petri-net alignment engine. -/
def alignments_convert_fallback (E : Engines) (log : LogArg) (args : List MArg)
    (multi_processing : Bool) (properties : Props) : Except PMError (List AlignResult) :=
  match E.convert_to_petri_net args with
  | none => Except.error PMError.unsupportedModel
  | some (net, im, fm) =>
    if multi_processing then
      Except.ok (E.align_apply_multiprocessing log net (MArg.marking im) (MArg.marking fm) properties)
    else
      Except.ok (E.align_apply log net (MArg.marking im) (MArg.marking fm) properties)

/-- `conformance_diagnostics_alignments`: validate the log, then
dispatch on the length of the model-argument list and the exact
runtime class of its first element; anything unrecognized falls
through to the Petri-net conversion fallback. -/
def conformance_diagnostics_alignments (E : Engines) (log : LogArg) (args : List MArg)
    (multi_processing : Bool) (activity_key timestamp_key case_id_key : String) :
    Except PMError (List AlignResult) :=
  match log_prelude log activity_key timestamp_key case_id_key with
  | Except.error e => Except.error e
  | Except.ok _ =>
    let properties := get_properties log activity_key timestamp_key case_id_key
    match args with
    | [MArg.net n, a1, a2] =>
      if multi_processing then
        Except.ok (E.align_apply_multiprocessing log n a1 a2 properties)
      else
        Except.ok (E.align_apply log n a1 a2 properties)
    | [MArg.dict d, a1, a2] => Except.ok (E.dfg_align_apply log d a1 a2 properties)
    | [MArg.counter d, a1, a2] => Except.ok (E.dfg_align_apply log d a1 a2 properties)
    | [MArg.tree t] =>
      if multi_processing then
        Except.ok (E.tree_align_apply_multiprocessing log t properties)
      else
        Except.ok (E.tree_align_apply log t properties)
    | _ => alignments_convert_fallback E log args multi_processing properties

/-- `fitness_token_based_replay`. -/
def fitness_token_based_replay (E : Engines) (log : LogArg)
    (petri_net : PetriNet) (initial_marking final_marking : Marking)
    (activity_key timestamp_key case_id_key : String) :
    Except PMError FitnessResult :=
  match log_prelude log activity_key timestamp_key case_id_key with
  | Except.error e => Except.error e
  | Except.ok _ =>
    let properties := get_properties log activity_key timestamp_key case_id_key
    Except.ok (E.replay_fitness_apply log petri_net initial_marking final_marking
      FitnessVariant.token_based properties)

/-- `fitness_alignments`: additionally stores the parallelism flag in
the configuration before forwarding. -/
def fitness_alignments (E : Engines) (log : LogArg)
    (petri_net : PetriNet) (initial_marking final_marking : Marking)
    (multi_processing : Bool) (activity_key timestamp_key case_id_key : String) :
    Except PMError FitnessResult :=
  match log_prelude log activity_key timestamp_key case_id_key with
  | Except.error e => Except.error e
  | Except.ok _ =>
    let parameters :=
      { get_properties log activity_key timestamp_key case_id_key with
        multiprocessing := some multi_processing }
    Except.ok (E.replay_fitness_apply log petri_net initial_marking final_marking
      FitnessVariant.alignment_based parameters)

/-- `precision_token_based_replay`. -/
def precision_token_based_replay (E : Engines) (log : LogArg)
    (petri_net : PetriNet) (initial_marking final_marking : Marking)
    (activity_key timestamp_key case_id_key : String) :
    Except PMError Rat :=
  match log_prelude log activity_key timestamp_key case_id_key with
  | Except.error e => Except.error e
  | Except.ok _ =>
    let properties := get_properties log activity_key timestamp_key case_id_key
    Except.ok (E.precision_apply log petri_net initial_marking final_marking
      PrecisionVariant.etconformance_token properties)

/-- `precision_alignments`: additionally stores the parallelism flag
in the configuration before forwarding. -/
def precision_alignments (E : Engines) (log : LogArg)
    (petri_net : PetriNet) (initial_marking final_marking : Marking)
    (multi_processing : Bool) (activity_key timestamp_key case_id_key : String) :
    Except PMError Rat :=
  match log_prelude log activity_key timestamp_key case_id_key with
  | Except.error e => Except.error e
  | Except.ok _ =>
    let parameters :=
      { get_properties log activity_key timestamp_key case_id_key with
        multiprocessing := some multi_processing }
    Except.ok (E.precision_apply log petri_net initial_marking final_marking
      PrecisionVariant.align_etconformance parameters)

/-- `conformance_log_skeleton`. -/
def conformance_log_skeleton (E : Engines) (log : LogArg)
    (log_skeleton : LogSkeleton) (activity_key timestamp_key case_id_key : String) :
    Except PMError (List SkelViolations) :=
  match log_prelude log activity_key timestamp_key case_id_key with
  | Except.error e => Except.error e
  | Except.ok _ =>
    let properties := get_properties log activity_key timestamp_key case_id_key
    Except.ok (E.log_skeleton_apply log log_skeleton properties)

/-- `__convert_to_fp`: repeatedly unwrap one-element tuples; a tuple
of any other length goes to footprint discovery; a bare list or dict
is already footprints and is returned unchanged; any other bare value
goes to footprint discovery. -/
def convert_to_fp (E : Engines) : FPObj → FPObj
  | FPObj.tupleO [x] => convert_to_fp E x
  | FPObj.tupleO xs => E.discover_footprints xs
  | FPObj.listO l => FPObj.listO l
  | FPObj.dictO d => FPObj.dictO d
  | x => E.discover_footprints [x]

/-- `conformance_diagnostics_footprints`: normalize the first argument
and the remaining arguments to footprints, then run the footprint
conformance engine; the variant is `TRACE_EXTENSIVE` when the first
footprints are a per-trace list, `LOG_EXTENSIVE` otherwise.  The
wrapping mirrors the Python calls `__convert_to_fp(args[0])` (a
one-element tuple of the value) and `__convert_to_fp(args[1:])` (a
one-element tuple holding the tail tuple). -/
def conformance_diagnostics_footprints (E : Engines) (args : List FPObj) : Except PMError FPObj :=
  match args with
  | [] => Except.error PMError.indexError
  | a0 :: rest =>
    let fp1 := convert_to_fp E (FPObj.tupleO [a0])
    let fp2 := convert_to_fp E (FPObj.tupleO [FPObj.tupleO rest])
    match fp1 with
    | FPObj.listO l =>
      Except.ok (E.footprints_conformance_apply (FPObj.listO l) fp2 FPVariant.trace_extensive)
    | x => Except.ok (E.footprints_conformance_apply x fp2 FPVariant.log_extensive)

/-- Indexing `l[0]` on the per-trace result list of an engine;
`IndexError` when empty. -/
def listIdx {α : Type} (l : List α) (i : Nat) : Except PMError α :=
  match l[i]? with
  | some a => Except.ok a
  | none => Except.error PMError.indexError

/-- `__check_is_fit_process_tree`: the three-tier cascade for a trace
against a hierarchical model.  Tier 1: footprint comparison on the
single-trace log; a falsy `is_footprints_fit` is conclusive and
returns not-fit.  Tier 2: convert the tree to a procedural model and
run token-based replay; a fit verdict is conclusive and returns fit.
Tier 3: alignments; fit iff the computed fitness equals exactly 1.0.
The inner tiers call the public diagnostics entry points with their
default attribute-name configuration, exactly as the source does. -/
def check_is_fit_process_tree (E : Engines) (trace : Trace) (tree : ProcessTree) :
    Except PMError Bool := do
  let log : List Trace := [trace]
  let fp_tree := E.discover_footprints [FPObj.treeO tree]
  let fp_log := E.discover_footprints [FPObj.logO log]
  let fp_conf ← conformance_diagnostics_footprints E [fp_log, fp_tree]
  let fp_conf_res ← fp_conf.getIdx 0
  let fitv ← fp_conf_res.getKey "is_footprints_fit"
  if !fitv.truthy then
    return false
  else
    match E.convert_to_petri_net [MArg.tree tree] with
    | none => throw PMError.unsupportedModel
    | some (net, im, fm) => do
      let tbr ← conformance_diagnostics_token_based_replay E (LogArg.eventLog log) net im fm
        DEFAULT_NAME_KEY DEFAULT_TIMESTAMP_KEY DEFAULT_TRACEID_KEY
      let tbr0 ← listIdx tbr 0
      if tbr0.trace_is_fit then
        return true
      else
        let al ← conformance_diagnostics_alignments E (LogArg.eventLog log) [MArg.tree tree] false
          DEFAULT_NAME_KEY DEFAULT_TIMESTAMP_KEY DEFAULT_TRACEID_KEY
        let al0 ← listIdx al 0
        return (decide (al0.fitness = 1))

/-- `__check_is_fit_petri_net`: the cascade for a trace against a
procedural model.  No footprint tier (the source skips it as too
slow); instead, if the trace contains an activity value that is not a
transition label of the model, return not-fit immediately.  Otherwise
run token-based replay (a fit verdict is conclusive) and finally
alignments (fit iff fitness equals exactly 1.0).  The activity values
of the trace are read under the caller-supplied key (`KeyError` when
an event lacks it); the replay and alignment tiers are invoked through
the public entry points with their default configuration, exactly as
the source does. -/
def check_is_fit_petri_net (E : Engines) (trace : Trace) (net : PetriNet)
    (im fm : Marking) (activity_key : String) : Except PMError Bool := do
  let activities_model : List String := net.transitions.filterMap (fun trans => trans.label)
  let activities_trace ← trace.mapM (fun x =>
    match x.get activity_key with
    | some v => Except.ok v
    | none => Except.error (PMError.keyError activity_key))
  let diff := activities_trace.filter (fun a =>
    !(activities_model.any (fun s => AttrVal.str s == a)))
  if !diff.isEmpty then
    return false
  else
    let log : List Trace := [trace]
    let tbr ← conformance_diagnostics_token_based_replay E (LogArg.eventLog log) net im fm
      DEFAULT_NAME_KEY DEFAULT_TIMESTAMP_KEY DEFAULT_TRACEID_KEY
    let tbr0 ← listIdx tbr 0
    if tbr0.trace_is_fit then
      return true
    else
      let al ← conformance_diagnostics_alignments E (LogArg.eventLog log)
        [MArg.net net, MArg.marking im, MArg.marking fm] false
        DEFAULT_NAME_KEY DEFAULT_TIMESTAMP_KEY DEFAULT_TRACEID_KEY
      let al0 ← listIdx al 0
      return (decide (al0.fitness = 1))

/-- The runtime shape of the first argument of `check_is_fitting`: a
structured `Trace` object, or anything else — a variant, i.e. a plain
activity sequence. -/
inductive TrArg where
  | traceA : Trace → TrArg
  | variantA : List String → TrArg

/-- Modelled from the spec: `variants_util.get_activities_from_variant`
returns the plain activity sequence of a variant (spec 4.3 inputs). -/
def get_activities_from_variant (variant : List String) : List String := variant

/-- `check_is_fitting`: coerce the model arguments to a hierarchical
model, falling back to a procedural model (a failure of the fallback
conversion is the spec's `UnsupportedModelError`); promote a
non-`Trace` first argument to a trace with one event per activity
under the configured key; then dispatch to the matching cascade.  The
converters return exactly the shapes the source's `isinstance`
dispatch tests, so no other outcome exists. -/
def check_is_fitting (E : Engines) (trace_arg : TrArg) (model_args : List MArg)
    (activity_key : String) : Except PMError Bool :=
  let modelE : Except PMError (ProcessTree ⊕ (PetriNet × Marking × Marking)) :=
    match E.convert_to_process_tree model_args with
    | some t => Except.ok (Sum.inl t)
    | none =>
      match E.convert_to_petri_net model_args with
      | some nif => Except.ok (Sum.inr nif)
      | none => Except.error PMError.unsupportedModel
  match modelE with
  | Except.error e => Except.error e
  | Except.ok model =>
    let trace : Trace :=
      match trace_arg with
      | TrArg.traceA t => t
      | TrArg.variantA v =>
        (get_activities_from_variant v).map (fun act => Event.mk [(activity_key, AttrVal.str act)])
    match model with
    | Sum.inl tree => check_is_fit_process_tree E trace tree
    | Sum.inr (net, im, fm) => check_is_fit_petri_net E trace net im fm activity_key

/-- A temporal profile: a mapping from an ordered activity pair to the
(mean, standard deviation) of the observed time gaps (spec data
model). -/
abbrev TemporalProfile := List ((String × String) × (Rat × Rat))

/-- Profile lookup for an ordered activity pair. -/
def profile_lookup (profile : TemporalProfile) (ab : String × String) : Option (Rat × Rat) :=
  (profile.find? (fun p => p.1 == ab)).map (fun p => p.2)

/-- All ordered position pairs of a list: `(l[i], l[j])` for `i < j`,
enumerated by ascending first position. -/
def orderedPairs {α : Type} : List α → List (α × α)
  | [] => []
  | x :: xs => xs.map (fun y => (x, y)) ++ orderedPairs xs

/-- Modelled from the spec: the per-case projection used by the
temporal engine — the (activity, timestamp) sequence of a case, read
under the configured keys; events lacking either attribute are outside
the engine's contract (spec data model) and are skipped. -/
def case_projection (props : Props) (trace : Trace) : List (String × Rat) :=
  trace.filterMap (fun e =>
    match e.get props.activity_key, e.get props.timestamp_key with
    | some (AttrVal.str a), some (AttrVal.num ts) => some (a, ts)
    | _, _ => none)

/-- Modelled from the spec: per-case deviation detection of the
temporal engine (spec 4.4).  For every ordered activity pair completed
in the case (first member occurs, second occurs later, not necessarily
adjacently) whose profile entry exists, the pair is flagged iff
`abs (observed_gap - mean) > zeta * stdev`, reported as the tuple
`(observed_gap, mean, stdev, zeta * stdev)`; pairs absent from the
profile are silently skipped. -/
def flag_pair (profile : TemporalProfile) (zeta : Rat)
    (p : (String × Rat) × (String × Rat)) : Option (Rat × Rat × Rat × Rat) :=
  match profile_lookup profile (p.1.1, p.2.1) with
  | some ms =>
    let gap := p.2.2 - p.1.2
    if zeta * ms.2 < |gap - ms.1| then some (gap, ms.1, ms.2, zeta * ms.2) else none
  | none => none

/-- Modelled from the spec: the deviation list of a single case — the
flagged completed pairs, enumerated in order of completion of the
qualifying pair (spec 4.4). -/
def temporal_deviations (profile : TemporalProfile) (zeta : Rat)
    (evs : List (String × Rat)) : List (Rat × Rat × Rat × Rat) :=
  (orderedPairs evs).filterMap (flag_pair profile zeta)

/-- First occurrences of the case-identifier values of a flat event
sequence, in order of first appearance. -/
def dedup_keep_first (seen : List AttrVal) : List AttrVal → List AttrVal
  | [] => []
  | x :: xs =>
    if seen.contains x then dedup_keep_first seen xs
    else x :: dedup_keep_first (x :: seen) xs

/-- Modelled from the spec: grouping a flat event sequence (a table's
rows or an event stream) into cases by the configured case-identifier
attribute, preserving input order (spec data model; spec 4.4 "case
order preserves input log order"); events lacking the attribute are
dropped. -/
def group_events (case_id_key : String) (evs : List Event) : List Trace :=
  (dedup_keep_first [] (evs.filterMap (fun e => e.get case_id_key))).map
    (fun c => evs.filter (fun e => e.get case_id_key == some c))

/-- The cases of a log argument: a structured log is already a list of
cases; a table or a stream is grouped by the case identifier. -/
def log_cases (case_id_key : String) : LogArg → List Trace
  | LogArg.eventLog l => l
  | LogArg.subEventLog l => l
  | LogArg.eventStream evs => group_events case_id_key evs
  | LogArg.dataFrame df => group_events case_id_key df.rows
  | LogArg.subDataFrame df => group_events case_id_key df.rows
  | LogArg.otherObj _ => []

/-- Modelled from the spec: the temporal-profile conformance engine
(spec 4.4), which is not under the source tree (only its caller is):
it emits, per case of the log, the list of statistically anomalous
activity pairs, with the tolerance multiplier read from the
configuration (1 when unset). -/
def temporal_profile_conformance_apply (log : LogArg) (temporal_profile : TemporalProfile)
    (props : Props) : List (List (Rat × Rat × Rat × Rat)) :=
  let zeta := props.zeta.getD 1
  (log_cases props.case_id_key log).map
    (fun tr => temporal_deviations temporal_profile zeta (case_projection props tr))

/-- `conformance_temporal_profile`: validate the log, store the
caller-supplied tolerance in the configuration, and run the temporal
engine. -/
def conformance_temporal_profile (log : LogArg) (temporal_profile : TemporalProfile)
    (zeta : Rat) (activity_key timestamp_key case_id_key : String) :
    Except PMError (List (List (Rat × Rat × Rat × Rat))) :=
  match log_prelude log activity_key timestamp_key case_id_key with
  | Except.error e => Except.error e
  | Except.ok _ =>
    let properties :=
      { get_properties log activity_key timestamp_key case_id_key with zeta := some zeta }
    Except.ok (temporal_profile_conformance_apply log temporal_profile properties)

/-- Python's built-in `round`: nearest integer, ties to the even
integer. -/
def pyRound (q : Rat) : Int :=
  let fl : Int := ⌊q⌋
  if q - fl < 1/2 then fl
  else if 1/2 < q - fl then fl + 1
  else if fl % 2 = 0 then fl else fl + 1

/-- The result object of the LP backend; `fun_val` embeds the
objective value field `fun` (a Lean keyword) and `x` the solution
point. -/
structure OptimizeResult where
  fun_val : Rat
  x : List Rat
deriving DecidableEq, Repr

/-- The generic LP backend (`scipy.optimize.linprog`), an external
collaborator: it receives the cost vector, the inequality and equality
constraint matrices and vectors, the method name and the integrality
specification. -/
structure LPBackend where
  linprog : List Rat → List (List Rat) → List Rat → List (List Rat) → List Rat →
    String → Option (List Nat) → OptimizeResult

namespace scipy_solver

/-- `Parameters.INTEGRALITY`. -/
def INTEGRALITY : String := "integrality"

/-- Modelled from the spec: `exec_utils.get_param_value` returns the
value stored under the key in the parameter record, or the supplied
default. -/
def get_param_value (key : String) (parameters : List (String × List Nat))
    (default : Option (List Nat)) : Option (List Nat) :=
  match parameters.find? (fun p => p.1 == key) with
  | some p => some p.2
  | none => default

/-- `scipy_solver.apply`: read the integrality parameter and forward
everything to the backend with the fixed method name. -/
def apply (B : LPBackend) (c : List Rat) (Aub : List (List Rat)) (bub : List Rat)
    (Aeq : List (List Rat)) (beq : List Rat)
    (parameters : List (String × List Nat)) : OptimizeResult :=
  let integrality := get_param_value INTEGRALITY parameters none
  B.linprog c Aub bub Aeq beq "revised simplex" integrality

/-- `scipy_solver.get_prim_obj_from_sol`: `round(sol.fun)`. -/
def get_prim_obj_from_sol (sol : OptimizeResult)
    (_parameters : List (String × List Nat)) : Int :=
  pyRound sol.fun_val

/-- `scipy_solver.get_points_from_sol`: `[round(y) for y in sol.x]`. -/
def get_points_from_sol (sol : OptimizeResult)
    (_parameters : List (String × List Nat)) : List Int :=
  sol.x.map pyRound

end scipy_solver

/-! ### Concrete objects and engines used to instantiate the theorems -/

/-- A small procedural model. -/
def examplePetriNet : PetriNet :=
  ⟨["p1", "p2"], [⟨"t1", some "a"⟩, ⟨"tau", none⟩]⟩

/-- A marking of the small model. -/
def exampleMarking : Marking := ⟨[("p1", 1)]⟩

/-- A small hierarchical model. -/
def exampleTree : ProcessTree :=
  ProcessTree.seq [ProcessTree.leaf (some "a"), ProcessTree.leaf none]

/-- A concrete engine record with inert engines, used to instantiate
the theorems on closed inputs; individual fields are overridden where
a scenario needs a specific engine behaviour. -/
def defaultEngines : Engines where
  token_replay := fun _ _ _ _ _ => []
  align_apply := fun _ _ _ _ _ => []
  align_apply_multiprocessing := fun _ _ _ _ _ => []
  dfg_align_apply := fun _ _ _ _ _ => []
  tree_align_apply := fun _ _ _ => []
  tree_align_apply_multiprocessing := fun _ _ _ => []
  replay_fitness_apply := fun _ _ _ _ _ _ => ⟨1, 1⟩
  precision_apply := fun _ _ _ _ _ _ => 1
  log_skeleton_apply := fun _ _ _ => []
  discover_footprints := fun _ => FPObj.listO []
  footprints_conformance_apply := fun _ _ _ => FPObj.listO []
  convert_to_process_tree := fun _ => none
  convert_to_petri_net := fun _ => none

/-! ### Helper lemmas -/

/-- A log whose exact runtime class is unrecognized makes the shared
validation prelude raise immediately. -/
theorem log_prelude_not_ok (log : LogArg) (a t c : String)
    (h : log_type_ok log = false) :
    log_prelude log a t c = Except.error (PMError.exn TRADITIONAL_LOG_MSG) := by
  simp [log_prelude, h]

/-- The validation prelude accepts a structured event log outright. -/
theorem log_prelude_eventLog (l : List Trace) (a t c : String) :
    log_prelude (LogArg.eventLog l) a t c = Except.ok () := rfl

/-! ### Claim theorems -/

/-- Claim C8: the LP solver wrapper forwards the cost vector and the
inequality/equality constraint matrices to the backend unchanged, and
its result extractors return the backend's objective value and
solution point rounded to the nearest integers (`round(sol.fun)` and
the element-wise rounding of `sol.x`, where `round` is Python's
nearest-integer rounding). -/
theorem scipy_solver_forwarding_and_rounding :
    (∀ (B : LPBackend) (c : List Rat) (Aub : List (List Rat)) (bub : List Rat)
        (Aeq : List (List Rat)) (beq : List Rat) (parameters : List (String × List Nat)),
      scipy_solver.apply B c Aub bub Aeq beq parameters
        = B.linprog c Aub bub Aeq beq "revised simplex"
            (scipy_solver.get_param_value scipy_solver.INTEGRALITY parameters none)) ∧
    (∀ (sol : OptimizeResult) (parameters : List (String × List Nat)),
      scipy_solver.get_prim_obj_from_sol sol parameters = pyRound sol.fun_val) ∧
    (∀ (sol : OptimizeResult) (parameters : List (String × List Nat)),
      scipy_solver.get_points_from_sol sol parameters = sol.x.map pyRound) ∧
    (∀ q : Rat, |q - (pyRound q : Int)| ≤ 1/2) := by
  refine ⟨fun _ _ _ _ _ _ _ => rfl, fun _ _ => rfl, fun _ _ => rfl, fun q => ?_⟩
  have h0 : ((⌊q⌋ : Int) : Rat) ≤ q := Int.floor_le q
  have h1 : q < (⌊q⌋ : Int) + 1 := Int.lt_floor_add_one q
  simp only [pyRound]
  split_ifs with hlt hgt hev
  · rw [abs_le]
    constructor <;> linarith
  · rw [abs_le]
    push_cast
    constructor <;> linarith
  · rw [abs_le]
    constructor <;> linarith
  · rw [abs_le]
    push_cast
    constructor <;> linarith

/-- Claim C6: a non-`Trace` first argument of the single-trace fitness
check is promoted to a trace with exactly one event per activity of
the sequence, in order, each carrying the activity under the
configured key, and the cascade then runs on the promoted trace. -/
theorem check_is_fitting_variant_promotion (E : Engines) (v : List String)
    (model_args : List MArg) (activity_key : String) :
    check_is_fitting E (TrArg.variantA v) model_args activity_key
      = check_is_fitting E
          (TrArg.traceA (v.map (fun act => Event.mk [(activity_key, AttrVal.str act)])))
          model_args activity_key := by
  unfold check_is_fitting
  cases h1 : E.convert_to_process_tree model_args with
  | some t => simp [get_activities_from_variant]
  | none =>
    cases h2 : E.convert_to_petri_net model_args with
    | some nif => simp [get_activities_from_variant]
    | none => rfl

/-- Claim C3: when the model arguments can be coerced neither to a
hierarchical nor to a procedural form, the single-trace fitness check
fails with the model-unsupported error instead of returning a
verdict. -/
theorem check_is_fitting_unsupported_model (E : Engines) (trace_arg : TrArg)
    (model_args : List MArg) (activity_key : String)
    (h1 : E.convert_to_process_tree model_args = none)
    (h2 : E.convert_to_petri_net model_args = none) :
    check_is_fitting E trace_arg model_args activity_key
      = Except.error PMError.unsupportedModel := by
  unfold check_is_fitting
  rw [h1, h2]

/-- Closed instance of the C3 theorem. -/
theorem check_is_fitting_unsupported_model_witness :
    defaultEngines.convert_to_process_tree [MArg.other "bpmn"] = none ∧
    defaultEngines.convert_to_petri_net [MArg.other "bpmn"] = none ∧
    check_is_fitting defaultEngines (TrArg.variantA ["a"]) [MArg.other "bpmn"]
        DEFAULT_NAME_KEY
      = Except.error PMError.unsupportedModel :=
  ⟨rfl, rfl,
    check_is_fitting_unsupported_model defaultEngines (TrArg.variantA ["a"])
      [MArg.other "bpmn"] DEFAULT_NAME_KEY rfl rfl⟩

/-- Claim C5: a log argument of unrecognized runtime shape makes every
public conformance entry point fail with the input-shape error before
any computation: the outcome is the error for every choice of the
external engines, so none of them is ever invoked. -/
theorem entry_points_reject_unrecognized_log (log : LogArg)
    (h : log_type_ok log = false) :
    (∀ (E : Engines) net im fm a t c,
      conformance_diagnostics_token_based_replay E log net im fm a t c
        = Except.error (PMError.exn TRADITIONAL_LOG_MSG)) ∧
    (∀ (E : Engines) args mp a t c,
      conformance_diagnostics_alignments E log args mp a t c
        = Except.error (PMError.exn TRADITIONAL_LOG_MSG)) ∧
    (∀ (E : Engines) net im fm a t c,
      fitness_token_based_replay E log net im fm a t c
        = Except.error (PMError.exn TRADITIONAL_LOG_MSG)) ∧
    (∀ (E : Engines) net im fm mp a t c,
      fitness_alignments E log net im fm mp a t c
        = Except.error (PMError.exn TRADITIONAL_LOG_MSG)) ∧
    (∀ (E : Engines) net im fm a t c,
      precision_token_based_replay E log net im fm a t c
        = Except.error (PMError.exn TRADITIONAL_LOG_MSG)) ∧
    (∀ (E : Engines) net im fm mp a t c,
      precision_alignments E log net im fm mp a t c
        = Except.error (PMError.exn TRADITIONAL_LOG_MSG)) ∧
    (∀ profile zeta a t c,
      conformance_temporal_profile log profile zeta a t c
        = Except.error (PMError.exn TRADITIONAL_LOG_MSG)) ∧
    (∀ (E : Engines) skel a t c,
      conformance_log_skeleton E log skel a t c
        = Except.error (PMError.exn TRADITIONAL_LOG_MSG)) := by
  refine ⟨?_, ?_, ?_, ?_, ?_, ?_, ?_, ?_⟩ <;> intros <;>
    simp [conformance_diagnostics_token_based_replay,
      conformance_diagnostics_alignments, fitness_token_based_replay,
      fitness_alignments, precision_token_based_replay, precision_alignments,
      conformance_temporal_profile, conformance_log_skeleton,
      log_prelude_not_ok log _ _ _ h]

/-- Closed instance of the C5 theorem. -/
theorem entry_points_reject_unrecognized_log_witness :
    log_type_ok (LogArg.otherObj "numpy array") = false ∧
    conformance_diagnostics_token_based_replay defaultEngines
        (LogArg.otherObj "numpy array") examplePetriNet exampleMarking exampleMarking
        DEFAULT_NAME_KEY DEFAULT_TIMESTAMP_KEY DEFAULT_TRACEID_KEY
      = Except.error (PMError.exn TRADITIONAL_LOG_MSG) ∧
    conformance_temporal_profile (LogArg.otherObj "numpy array") [] 1
        DEFAULT_NAME_KEY DEFAULT_TIMESTAMP_KEY DEFAULT_TRACEID_KEY
      = Except.error (PMError.exn TRADITIONAL_LOG_MSG) :=
  ⟨rfl,
    (entry_points_reject_unrecognized_log (LogArg.otherObj "numpy array") rfl).1
      defaultEngines examplePetriNet exampleMarking exampleMarking
      DEFAULT_NAME_KEY DEFAULT_TIMESTAMP_KEY DEFAULT_TRACEID_KEY,
    (entry_points_reject_unrecognized_log (LogArg.otherObj "numpy array") rfl).2.2.2.2.2.2.1
      [] 1 DEFAULT_NAME_KEY DEFAULT_TIMESTAMP_KEY DEFAULT_TRACEID_KEY⟩

/-- Claim C9: the log-shape validation compares the exact runtime
type, so instances of proper subclasses of the accepted log classes
are rejected with the log-shape error even though they are table/log
shaped. -/
theorem exact_type_check_rejects_subclasses :
    (∀ df, log_type_ok (LogArg.subDataFrame df) = false) ∧
    (∀ l, log_type_ok (LogArg.subEventLog l) = false) ∧
    (∀ (E : Engines) df net im fm a t c,
      conformance_diagnostics_token_based_replay E (LogArg.subDataFrame df) net im fm a t c
        = Except.error (PMError.exn TRADITIONAL_LOG_MSG)) ∧
    (∀ (E : Engines) l net im fm a t c,
      conformance_diagnostics_token_based_replay E (LogArg.subEventLog l) net im fm a t c
        = Except.error (PMError.exn TRADITIONAL_LOG_MSG)) ∧
    (∀ (E : Engines) df skel a t c,
      conformance_log_skeleton E (LogArg.subDataFrame df) skel a t c
        = Except.error (PMError.exn TRADITIONAL_LOG_MSG)) ∧
    (∀ (E : Engines) l skel a t c,
      conformance_log_skeleton E (LogArg.subEventLog l) skel a t c
        = Except.error (PMError.exn TRADITIONAL_LOG_MSG)) := by
  refine ⟨fun _ => rfl, fun _ => rfl, ?_, ?_, ?_, ?_⟩ <;> intros <;>
    simp [conformance_diagnostics_token_based_replay, conformance_log_skeleton,
      log_prelude, log_type_ok]

/-- Claim C4: with the parallel flag set, a procedural model (Petri
net with two extra arguments) or a hierarchical model (single process
tree argument) is routed to the parallel variant of the alignment
engine; a frequency graph (`dict` or `Counter` with two extra
arguments) is routed to the sequential frequency-graph alignment
whatever the flag's value. -/
theorem alignments_router_multiprocessing (E : Engines) (log : LogArg)
    (a t c : String) (h : log_prelude log a t c = Except.ok ()) :
    (∀ n a1 a2,
      conformance_diagnostics_alignments E log [MArg.net n, a1, a2] true a t c
        = Except.ok (E.align_apply_multiprocessing log n a1 a2 (get_properties log a t c))) ∧
    (∀ tr,
      conformance_diagnostics_alignments E log [MArg.tree tr] true a t c
        = Except.ok (E.tree_align_apply_multiprocessing log tr (get_properties log a t c))) ∧
    (∀ mp d a1 a2,
      conformance_diagnostics_alignments E log [MArg.dict d, a1, a2] mp a t c
        = Except.ok (E.dfg_align_apply log d a1 a2 (get_properties log a t c))) ∧
    (∀ mp d a1 a2,
      conformance_diagnostics_alignments E log [MArg.counter d, a1, a2] mp a t c
        = Except.ok (E.dfg_align_apply log d a1 a2 (get_properties log a t c))) := by
  refine ⟨?_, ?_, ?_, ?_⟩ <;> intros <;>
    simp [conformance_diagnostics_alignments, h]

/-- Closed instance of the C4 theorem. -/
theorem alignments_router_multiprocessing_witness :
    log_prelude (LogArg.eventLog []) DEFAULT_NAME_KEY DEFAULT_TIMESTAMP_KEY
        DEFAULT_TRACEID_KEY = Except.ok () ∧
    conformance_diagnostics_alignments defaultEngines (LogArg.eventLog [])
        [MArg.net examplePetriNet, MArg.marking exampleMarking, MArg.marking exampleMarking]
        true DEFAULT_NAME_KEY DEFAULT_TIMESTAMP_KEY DEFAULT_TRACEID_KEY
      = Except.ok (defaultEngines.align_apply_multiprocessing (LogArg.eventLog [])
          examplePetriNet (MArg.marking exampleMarking) (MArg.marking exampleMarking)
          (get_properties (LogArg.eventLog []) DEFAULT_NAME_KEY DEFAULT_TIMESTAMP_KEY
            DEFAULT_TRACEID_KEY)) ∧
    conformance_diagnostics_alignments defaultEngines (LogArg.eventLog [])
        [MArg.dict [], MArg.other "sa", MArg.other "ea"] true
        DEFAULT_NAME_KEY DEFAULT_TIMESTAMP_KEY DEFAULT_TRACEID_KEY
      = Except.ok (defaultEngines.dfg_align_apply (LogArg.eventLog []) []
          (MArg.other "sa") (MArg.other "ea")
          (get_properties (LogArg.eventLog []) DEFAULT_NAME_KEY DEFAULT_TIMESTAMP_KEY
            DEFAULT_TRACEID_KEY)) ∧
    conformance_diagnostics_alignments defaultEngines (LogArg.eventLog [])
        [MArg.dict [], MArg.other "sa", MArg.other "ea"] false
        DEFAULT_NAME_KEY DEFAULT_TIMESTAMP_KEY DEFAULT_TRACEID_KEY
      = Except.ok (defaultEngines.dfg_align_apply (LogArg.eventLog []) []
          (MArg.other "sa") (MArg.other "ea")
          (get_properties (LogArg.eventLog []) DEFAULT_NAME_KEY DEFAULT_TIMESTAMP_KEY
            DEFAULT_TRACEID_KEY)) :=
  ⟨rfl,
    (alignments_router_multiprocessing defaultEngines (LogArg.eventLog [])
      DEFAULT_NAME_KEY DEFAULT_TIMESTAMP_KEY DEFAULT_TRACEID_KEY rfl).1
      examplePetriNet (MArg.marking exampleMarking) (MArg.marking exampleMarking),
    (alignments_router_multiprocessing defaultEngines (LogArg.eventLog [])
      DEFAULT_NAME_KEY DEFAULT_TIMESTAMP_KEY DEFAULT_TRACEID_KEY rfl).2.2.1
      true [] (MArg.other "sa") (MArg.other "ea"),
    (alignments_router_multiprocessing defaultEngines (LogArg.eventLog [])
      DEFAULT_NAME_KEY DEFAULT_TIMESTAMP_KEY DEFAULT_TRACEID_KEY rfl).2.2.1
      false [] (MArg.other "sa") (MArg.other "ea")⟩

/-- Reduction of a successful `Except` bind. -/
theorem except_bind_ok {ε α β : Type} (a : α) (f : α → Except ε β) :
    (Except.ok a : Except ε α) >>= f = f a := rfl

/-- Reduction of a failed `Except` bind. -/
theorem except_bind_err {ε α β : Type} (e : ε) (f : α → Except ε β) :
    (Except.error e : Except ε α) >>= f = Except.error e := rfl

/-- Membership in the ordered-pair enumeration is exactly the
existence of two positions in order. -/
theorem orderedPairs_mem {α : Type} (l : List α) (q : α × α) :
    q ∈ orderedPairs l ↔
      ∃ (i j : Nat), i < j ∧ l[i]? = some q.1 ∧ l[j]? = some q.2 := by
  obtain ⟨q1, q2⟩ := q
  induction l with
  | nil => simp [orderedPairs]
  | cons x xs ih =>
    simp only [orderedPairs, List.mem_append, List.mem_map, Prod.mk.injEq, ih]
    constructor
    · rintro (⟨y, hy, hx, hyq⟩ | ⟨i, j, hij, h1, h2⟩)
      · obtain ⟨j, hj⟩ := List.mem_iff_getElem?.mp hy
        subst hx
        subst hyq
        exact ⟨0, j + 1, Nat.succ_pos j, by simp, by simpa using hj⟩
      · exact ⟨i + 1, j + 1, by omega, by simpa using h1, by simpa using h2⟩
    · rintro ⟨i, j, hij, h1, h2⟩
      cases i with
      | zero =>
        cases j with
        | zero => omega
        | succ j =>
          rw [List.getElem?_cons_zero, Option.some_inj] at h1
          rw [List.getElem?_cons_succ] at h2
          exact Or.inl ⟨q2, List.mem_iff_getElem?.mpr ⟨j, h2⟩, h1, rfl⟩
      | succ i =>
        cases j with
        | zero => omega
        | succ j =>
          rw [List.getElem?_cons_succ] at h1 h2
          exact Or.inr ⟨i, j, by omega, h1, h2⟩

/-- Characterization of the per-pair flagging of the temporal
engine. -/
theorem flag_pair_eq_some (profile : TemporalProfile) (zeta : Rat)
    (p : (String × Rat) × (String × Rat)) (d : Rat × Rat × Rat × Rat) :
    flag_pair profile zeta p = some d ↔
      ∃ mean stdev, profile_lookup profile (p.1.1, p.2.1) = some (mean, stdev) ∧
        zeta * stdev < |p.2.2 - p.1.2 - mean| ∧
        d = (p.2.2 - p.1.2, mean, stdev, zeta * stdev) := by
  unfold flag_pair
  cases hl : profile_lookup profile (p.1.1, p.2.1) with
  | none => simp
  | some ms =>
    obtain ⟨mean, stdev⟩ := ms
    by_cases hc : zeta * stdev < |p.2.2 - p.1.2 - mean|
    · simp only [hc, if_pos, Option.some.injEq]
      constructor
      · rintro rfl
        exact ⟨mean, stdev, rfl, hc, rfl⟩
      · rintro ⟨m, s, hms, _, hd⟩
        rw [Prod.mk.injEq] at hms
        obtain ⟨rfl, rfl⟩ := hms
        exact hd.symm
    · simp only [hc, if_neg, if_false]
      constructor
      · intro h
        exact absurd h (by simp)
      · rintro ⟨m, s, hms, hlt, _⟩
        rw [Option.some_inj, Prod.mk.injEq] at hms
        obtain ⟨rfl, rfl⟩ := hms
        exact absurd hlt hc

/-- Claim C7: temporal-profile conformance reports, per case, exactly
the completed ordered activity pairs whose profile entry exists and
whose observed gap deviates from the mean by more than zeta standard
deviations, each reported as
(observed gap, expected mean, expected stdev, allowed bound); pairs
without a profile entry are skipped, and the caller-supplied zeta is
the multiplier actually used.  The closing conjuncts check the spec's
concrete example (profile mean 1.5, stdev 0.5, zeta 1: a gap of 24 is
reported, a gap of 1.6 is not). -/
theorem conformance_temporal_profile_spec :
    (∀ (l : List Trace) (profile : TemporalProfile) (zeta : Rat) (a t c : String),
      conformance_temporal_profile (LogArg.eventLog l) profile zeta a t c
        = Except.ok (l.map (fun tr =>
            temporal_deviations profile zeta
              (case_projection ⟨a, t, c, none, some zeta⟩ tr)))) ∧
    (∀ (profile : TemporalProfile) (zeta : Rat) (evs : List (String × Rat))
        (d : Rat × Rat × Rat × Rat),
      d ∈ temporal_deviations profile zeta evs ↔
        ∃ (i j : Nat) (ai : String) (ti : Rat) (aj : String) (tj mean stdev : Rat),
          i < j ∧ evs[i]? = some (ai, ti) ∧ evs[j]? = some (aj, tj) ∧
          profile_lookup profile (ai, aj) = some (mean, stdev) ∧
          zeta * stdev < |tj - ti - mean| ∧
          d = (tj - ti, mean, stdev, zeta * stdev)) ∧
    temporal_deviations [(("A", "B"), (3/2, 1/2))] 1 [("A", 0), ("B", 24)]
      = [(24, 3/2, 1/2, 1/2)] ∧
    temporal_deviations [(("A", "B"), (3/2, 1/2))] 1 [("A", 0), ("B", 8/5)] = [] := by
  refine ⟨fun _ _ _ _ _ _ => rfl, ?hB, ?hC, ?hD⟩
  case hC =>
    have h : flag_pair [(("A", "B"), (3/2, 1/2))] 1 (("A", 0), ("B", 24))
        = some (24, 3/2, 1/2, 1/2) := by
      show (match profile_lookup [(("A", "B"), (3/2, 1/2))] ("A", "B") with
        | some ms =>
          let gap : Rat := 24 - 0
          if 1 * ms.2 < |gap - ms.1| then some (gap, ms.1, ms.2, 1 * ms.2) else none
        | none => none) = some (24, 3/2, 1/2, 1/2)
      rw [show profile_lookup [(("A", "B"), (3/2, 1/2))] ("A", "B")
        = some (3/2, 1/2) from rfl]
      show (if (1:Rat) * (1/2) < |24 - 0 - 3/2| then
        some ((24:Rat) - 0, (3:Rat)/2, (1:Rat)/2, (1:Rat) * (1/2)) else none)
        = some (24, 3/2, 1/2, 1/2)
      rw [if_pos (by rw [abs_of_nonneg (by norm_num : (0:Rat) ≤ 24 - 0 - 3/2)]; norm_num)]
      norm_num
    show List.filterMap (flag_pair [(("A", "B"), (3/2, 1/2))] 1) [(("A", 0), ("B", 24))] = _
    rw [List.filterMap_cons, h]
    rfl
  case hD =>
    have h : flag_pair [(("A", "B"), (3/2, 1/2))] 1 (("A", 0), ("B", 8/5)) = none := by
      show (match profile_lookup [(("A", "B"), (3/2, 1/2))] ("A", "B") with
        | some ms =>
          let gap : Rat := 8/5 - 0
          if 1 * ms.2 < |gap - ms.1| then some (gap, ms.1, ms.2, 1 * ms.2) else none
        | none => none) = none
      rw [show profile_lookup [(("A", "B"), (3/2, 1/2))] ("A", "B")
        = some (3/2, 1/2) from rfl]
      show (if (1:Rat) * (1/2) < |8/5 - 0 - 3/2| then
        some ((8:Rat)/5 - 0, (3:Rat)/2, (1:Rat)/2, (1:Rat) * (1/2)) else none) = none
      rw [if_neg (by rw [abs_of_nonneg (by norm_num : (0:Rat) ≤ 8/5 - 0 - 3/2)]; norm_num)]
    show List.filterMap (flag_pair [(("A", "B"), (3/2, 1/2))] 1) [(("A", 0), ("B", 8/5))] = _
    rw [List.filterMap_cons, h]
    rfl
  intro profile zeta evs d
  simp only [temporal_deviations, List.mem_filterMap]
  constructor
  · rintro ⟨p, hp, he⟩
    rw [orderedPairs_mem] at hp
    obtain ⟨i, j, hij, h1, h2⟩ := hp
    rw [flag_pair_eq_some] at he
    obtain ⟨mean, stdev, hl, hc, hd⟩ := he
    exact ⟨i, j, p.1.1, p.1.2, p.2.1, p.2.2, mean, stdev, hij, h1, h2, hl, hc, hd⟩
  · rintro ⟨i, j, ai, ti, aj, tj, mean, stdev, hij, h1, h2, hl, hc, hd⟩
    refine ⟨((ai, ti), (aj, tj)), ?_, ?_⟩
    · rw [orderedPairs_mem]
      exact ⟨i, j, hij, h1, h2⟩
    · rw [flag_pair_eq_some]
      exact ⟨mean, stdev, hl, hc, hd⟩

/-- The footprint bridge depends on the engine record only through the
discovery oracle. -/
theorem convert_to_fp_congr (E E' : Engines)
    (h : E.discover_footprints = E'.discover_footprints) :
    ∀ x, convert_to_fp E x = convert_to_fp E' x := by
  intro x
  induction x using convert_to_fp.induct E with
  | case1 x ih => rw [convert_to_fp, convert_to_fp, ih]
  | case2 xs hne =>
    rw [convert_to_fp.eq_def, convert_to_fp.eq_def]
    cases xs with
    | nil => simp [h]
    | cons y ys =>
      cases ys with
      | nil => simp at hne
      | cons z zs => simp [h]
  | case3 l => rfl
  | case4 d => rfl
  | case5 x h1 h2 h3 h4 =>
    rw [convert_to_fp.eq_def, convert_to_fp.eq_def]
    cases x <;> simp_all

/-- The footprints entry point depends on the engine record only
through the discovery and footprint-comparison oracles. -/
theorem conformance_diagnostics_footprints_congr (E E' : Engines)
    (h1 : E.discover_footprints = E'.discover_footprints)
    (h2 : E.footprints_conformance_apply = E'.footprints_conformance_apply)
    (args : List FPObj) :
    conformance_diagnostics_footprints E args
      = conformance_diagnostics_footprints E' args := by
  unfold conformance_diagnostics_footprints
  cases args with
  | nil => rfl
  | cons a0 rest =>
    simp only [convert_to_fp_congr E E' h1, h2]

/-- Claim C1: against a hierarchical model the cascade follows the
three-tier policy: a falsy footprint verdict returns not-fit with the
conversion, replay and alignment oracles all irrelevant to the
outcome; a truthy footprint verdict followed by a fit replay verdict
returns fit with all alignment oracles irrelevant; otherwise the
verdict is fit iff the alignment fitness equals exactly 1.0. -/
theorem check_is_fit_process_tree_cascade (E : Engines) (trace : Trace)
    (tree : ProcessTree) :
    (∀ conf r0 v,
      conformance_diagnostics_footprints E
        [E.discover_footprints [FPObj.logO [trace]],
         E.discover_footprints [FPObj.treeO tree]] = Except.ok conf →
      conf.getIdx 0 = Except.ok r0 →
      r0.getKey "is_footprints_fit" = Except.ok v →
      v.truthy = false →
      ∀ tr al alm dfa ta tam cpt,
        check_is_fit_process_tree
          { E with
            token_replay := tr
            align_apply := al
            align_apply_multiprocessing := alm
            dfg_align_apply := dfa
            tree_align_apply := ta
            tree_align_apply_multiprocessing := tam
            convert_to_petri_net := cpt }
          trace tree = Except.ok false) ∧
    (∀ conf r0 v net im fm r rest,
      conformance_diagnostics_footprints E
        [E.discover_footprints [FPObj.logO [trace]],
         E.discover_footprints [FPObj.treeO tree]] = Except.ok conf →
      conf.getIdx 0 = Except.ok r0 →
      r0.getKey "is_footprints_fit" = Except.ok v →
      v.truthy = true →
      E.convert_to_petri_net [MArg.tree tree] = some (net, im, fm) →
      E.token_replay (LogArg.eventLog [trace]) net im fm
        (get_properties (LogArg.eventLog [trace]) DEFAULT_NAME_KEY DEFAULT_TIMESTAMP_KEY
          DEFAULT_TRACEID_KEY) = r :: rest →
      r.trace_is_fit = true →
      ∀ al alm dfa ta tam,
        check_is_fit_process_tree
          { E with
            align_apply := al
            align_apply_multiprocessing := alm
            dfg_align_apply := dfa
            tree_align_apply := ta
            tree_align_apply_multiprocessing := tam }
          trace tree = Except.ok true) ∧
    (∀ conf r0 v net im fm r rest a arest,
      conformance_diagnostics_footprints E
        [E.discover_footprints [FPObj.logO [trace]],
         E.discover_footprints [FPObj.treeO tree]] = Except.ok conf →
      conf.getIdx 0 = Except.ok r0 →
      r0.getKey "is_footprints_fit" = Except.ok v →
      v.truthy = true →
      E.convert_to_petri_net [MArg.tree tree] = some (net, im, fm) →
      E.token_replay (LogArg.eventLog [trace]) net im fm
        (get_properties (LogArg.eventLog [trace]) DEFAULT_NAME_KEY DEFAULT_TIMESTAMP_KEY
          DEFAULT_TRACEID_KEY) = r :: rest →
      r.trace_is_fit = false →
      E.tree_align_apply (LogArg.eventLog [trace]) tree
        (get_properties (LogArg.eventLog [trace]) DEFAULT_NAME_KEY DEFAULT_TIMESTAMP_KEY
          DEFAULT_TRACEID_KEY) = a :: arest →
      check_is_fit_process_tree E trace tree
        = Except.ok (decide (a.fitness = 1))) := by
  refine ⟨?_, ?_, ?_⟩
  · intro conf r0 v hconf hidx hkey htruthy tr al alm dfa ta tam cpt
    unfold check_is_fit_process_tree
    dsimp only
    rw [conformance_diagnostics_footprints_congr
      { E with
        token_replay := tr
        align_apply := al
        align_apply_multiprocessing := alm
        dfg_align_apply := dfa
        tree_align_apply := ta
        tree_align_apply_multiprocessing := tam
        convert_to_petri_net := cpt } E rfl rfl
      [E.discover_footprints [FPObj.logO [trace]],
       E.discover_footprints [FPObj.treeO tree]]]
    rw [hconf, except_bind_ok, hidx, except_bind_ok, hkey, except_bind_ok]
    simp only [htruthy, Bool.not_false, if_true]
    rfl
  · intro conf r0 v net im fm r rest hconf hidx hkey htruthy hcpn htbr hfit
      al alm dfa ta tam
    unfold check_is_fit_process_tree conformance_diagnostics_token_based_replay
    dsimp only
    rw [conformance_diagnostics_footprints_congr
      { E with
        align_apply := al
        align_apply_multiprocessing := alm
        dfg_align_apply := dfa
        tree_align_apply := ta
        tree_align_apply_multiprocessing := tam } E rfl rfl
      [E.discover_footprints [FPObj.logO [trace]],
       E.discover_footprints [FPObj.treeO tree]]]
    rw [hconf, except_bind_ok, hidx, except_bind_ok, hkey, except_bind_ok]
    simp only [htruthy, Bool.not_true, Bool.false_eq_true, if_false]
    rw [hcpn]
    simp only [log_prelude_eventLog]
    rw [htbr, except_bind_ok]
    simp only [listIdx, List.getElem?_cons_zero, except_bind_ok, hfit, if_true]
    rfl
  · intro conf r0 v net im fm r rest a arest hconf hidx hkey htruthy hcpn htbr
      hnotfit hta
    unfold check_is_fit_process_tree conformance_diagnostics_token_based_replay
      conformance_diagnostics_alignments
    dsimp only
    rw [hconf, except_bind_ok, hidx, except_bind_ok, hkey, except_bind_ok]
    simp only [htruthy, Bool.not_true, Bool.false_eq_true, if_false]
    rw [hcpn]
    simp only [log_prelude_eventLog]
    rw [htbr, except_bind_ok]
    simp only [listIdx, List.getElem?_cons_zero, except_bind_ok, hnotfit,
      Bool.false_eq_true, if_false]
    rw [hta]
    simp only [List.getElem?_cons_zero, except_bind_ok]
    rfl

/-- Engines for the closed hierarchical-cascade scenario: footprint
comparison reports fit, the tree converts to the small procedural
model, replay reports not-fit, tree alignment reports fitness 1. -/
def treeCascadeEngines : Engines :=
  { defaultEngines with
    footprints_conformance_apply := fun _ _ _ =>
      FPObj.listO [FPObj.dictO [("is_footprints_fit", FPObj.boolO true)]]
    convert_to_petri_net := fun _ => some (examplePetriNet, exampleMarking, exampleMarking)
    token_replay := fun _ _ _ _ _ => [⟨false⟩]
    tree_align_apply := fun _ _ _ => [⟨1⟩] }

/-- Closed instance of the C1 theorem, exercising the alignment
tier. -/
theorem check_is_fit_process_tree_cascade_witness :
    conformance_diagnostics_footprints treeCascadeEngines
      [treeCascadeEngines.discover_footprints [FPObj.logO [([] : Trace)]],
       treeCascadeEngines.discover_footprints [FPObj.treeO exampleTree]]
      = Except.ok (FPObj.listO [FPObj.dictO [("is_footprints_fit", FPObj.boolO true)]]) ∧
    (FPObj.boolO true).truthy = true ∧
    check_is_fit_process_tree treeCascadeEngines [] exampleTree = Except.ok true := by
  refine ⟨rfl, rfl, ?_⟩
  have h := (check_is_fit_process_tree_cascade treeCascadeEngines [] exampleTree).2.2
    (FPObj.listO [FPObj.dictO [("is_footprints_fit", FPObj.boolO true)]])
    (FPObj.dictO [("is_footprints_fit", FPObj.boolO true)]) (FPObj.boolO true)
    examplePetriNet exampleMarking exampleMarking ⟨false⟩ [] ⟨1⟩ []
    rfl rfl rfl rfl rfl rfl rfl rfl
  simpa using h

/-- Claim C2: on the procedural path the cascade performs no footprint
comparison (the footprint oracles are irrelevant to its outcome); when
some activity value of the trace is not among the model's transition
labels it returns not-fit for every possible engine record, so
token-based replay is never invoked; only when every trace activity is
among the labels does it run replay (a fit verdict returns fit) and
then alignments (fit iff the fitness equals exactly 1.0). -/
theorem check_is_fit_petri_net_cascade (E : Engines) (trace : Trace)
    (net : PetriNet) (im fm : Marking) (activity_key : String) :
    (∀ dfp fpc,
      check_is_fit_petri_net
        { E with discover_footprints := dfp, footprints_conformance_apply := fpc }
        trace net im fm activity_key
        = check_is_fit_petri_net E trace net im fm activity_key) ∧
    (∀ acts,
      trace.mapM (fun x =>
        match x.get activity_key with
        | some v => Except.ok v
        | none => Except.error (PMError.keyError activity_key)) = Except.ok acts →
      (acts.filter (fun a =>
        !((net.transitions.filterMap (fun trans => trans.label)).any
          (fun s => AttrVal.str s == a)))).isEmpty = false →
      ∀ E2 : Engines,
        check_is_fit_petri_net E2 trace net im fm activity_key = Except.ok false) ∧
    (∀ acts,
      trace.mapM (fun x =>
        match x.get activity_key with
        | some v => Except.ok v
        | none => Except.error (PMError.keyError activity_key)) = Except.ok acts →
      (acts.filter (fun a =>
        !((net.transitions.filterMap (fun trans => trans.label)).any
          (fun s => AttrVal.str s == a)))).isEmpty = true →
      ∀ r rest,
        E.token_replay (LogArg.eventLog [trace]) net im fm
          (get_properties (LogArg.eventLog [trace]) DEFAULT_NAME_KEY DEFAULT_TIMESTAMP_KEY
            DEFAULT_TRACEID_KEY) = r :: rest →
        (r.trace_is_fit = true →
          check_is_fit_petri_net E trace net im fm activity_key = Except.ok true) ∧
        (∀ a arest, r.trace_is_fit = false →
          E.align_apply (LogArg.eventLog [trace]) net (MArg.marking im) (MArg.marking fm)
            (get_properties (LogArg.eventLog [trace]) DEFAULT_NAME_KEY DEFAULT_TIMESTAMP_KEY
              DEFAULT_TRACEID_KEY) = a :: arest →
          check_is_fit_petri_net E trace net im fm activity_key
            = Except.ok (decide (a.fitness = 1)))) := by
  refine ⟨?_, ?_, ?_⟩
  · intro dfp fpc
    cases E
    rfl
  · intro acts hmap hne E2
    unfold check_is_fit_petri_net
    rw [hmap, except_bind_ok]
    simp only [hne, Bool.not_false, if_true]
    rfl
  · intro acts hmap hemp r rest htbr
    constructor
    · intro hfit
      unfold check_is_fit_petri_net conformance_diagnostics_token_based_replay
      rw [hmap, except_bind_ok]
      simp only [hemp, Bool.not_true, Bool.false_eq_true, if_false, log_prelude_eventLog]
      rw [htbr, except_bind_ok]
      simp only [listIdx, List.getElem?_cons_zero, except_bind_ok, hfit, if_true]
      rfl
    · intro a arest hnotfit halign
      unfold check_is_fit_petri_net conformance_diagnostics_token_based_replay
        conformance_diagnostics_alignments
      rw [hmap, except_bind_ok]
      simp only [hemp, Bool.not_true, Bool.false_eq_true, if_false, log_prelude_eventLog]
      rw [htbr, except_bind_ok]
      simp only [listIdx, List.getElem?_cons_zero, except_bind_ok, hnotfit,
        Bool.false_eq_true, if_false]
      rw [halign]
      simp only [List.getElem?_cons_zero, except_bind_ok]
      rfl

/-- Closed instance of the C2 theorem, exercising the replay and
alignment tiers. -/
theorem check_is_fit_petri_net_cascade_witness :
    ([Event.mk [(DEFAULT_NAME_KEY, AttrVal.str "a")]] : Trace).mapM (fun x =>
      match x.get DEFAULT_NAME_KEY with
      | some v => Except.ok v
      | none => Except.error (PMError.keyError DEFAULT_NAME_KEY))
      = Except.ok [AttrVal.str "a"] ∧
    ([AttrVal.str "a"].filter (fun a =>
      !((examplePetriNet.transitions.filterMap (fun trans => trans.label)).any
        (fun s => AttrVal.str s == a)))).isEmpty = true ∧
    check_is_fit_petri_net
      { defaultEngines with
        token_replay := fun _ _ _ _ _ => [⟨false⟩],
        align_apply := fun _ _ _ _ _ => [⟨1⟩] }
      [Event.mk [(DEFAULT_NAME_KEY, AttrVal.str "a")]] examplePetriNet
      exampleMarking exampleMarking DEFAULT_NAME_KEY = Except.ok true :=
  ⟨rfl, rfl, by
    have h := ((check_is_fit_petri_net_cascade
      { defaultEngines with
        token_replay := fun _ _ _ _ _ => [⟨false⟩],
        align_apply := fun _ _ _ _ _ => [⟨1⟩] }
      [Event.mk [(DEFAULT_NAME_KEY, AttrVal.str "a")]] examplePetriNet
      exampleMarking exampleMarking DEFAULT_NAME_KEY).2.2
      [AttrVal.str "a"] rfl rfl ⟨false⟩ [] rfl).2 ⟨1⟩ [] rfl rfl
    simpa using h⟩

/-- Claim C10: when the model converts to a hierarchical form, the
single-trace fitness check ignores the caller-supplied activity key
for a structured trace — the hierarchical path is the keyless helper,
and its replay and alignment tiers consult the engines only at the
default attribute configuration (the footprint tier's discovery calls
carry no configuration at all in the source), so a non-default key is
never forwarded. -/
theorem hierarchical_path_ignores_activity_key :
    (∀ (E : Engines) (t : Trace) (m : List MArg) (tr : ProcessTree) (key key' : String),
      E.convert_to_process_tree m = some tr →
      check_is_fitting E (TrArg.traceA t) m key
        = check_is_fitting E (TrArg.traceA t) m key') ∧
    (∀ (E : Engines) (t : Trace) (m : List MArg) (tr : ProcessTree) (key : String),
      E.convert_to_process_tree m = some tr →
      check_is_fitting E (TrArg.traceA t) m key = check_is_fit_process_tree E t tr) ∧
    (∀ (E : Engines) (t : Trace) (tr : ProcessTree)
        (tbr' : LogArg → PetriNet → Marking → Marking → Props → List TBRResult)
        (ta' : LogArg → ProcessTree → Props → List AlignResult),
      (∀ l n i f, tbr' l n i f
          (get_properties l DEFAULT_NAME_KEY DEFAULT_TIMESTAMP_KEY DEFAULT_TRACEID_KEY)
        = E.token_replay l n i f
          (get_properties l DEFAULT_NAME_KEY DEFAULT_TIMESTAMP_KEY DEFAULT_TRACEID_KEY)) →
      (∀ l t2, ta' l t2
          (get_properties l DEFAULT_NAME_KEY DEFAULT_TIMESTAMP_KEY DEFAULT_TRACEID_KEY)
        = E.tree_align_apply l t2
          (get_properties l DEFAULT_NAME_KEY DEFAULT_TIMESTAMP_KEY DEFAULT_TRACEID_KEY)) →
      check_is_fit_process_tree
        { E with
          token_replay := tbr'
          tree_align_apply := ta' } t tr
        = check_is_fit_process_tree E t tr) := by
  refine ⟨?_, ?_, ?_⟩
  · intro E t m tr key key' hconv
    unfold check_is_fitting
    rw [hconv]
  · intro E t m tr key hconv
    unfold check_is_fitting
    rw [hconv]
  · intro E t tr tbr' ta' h4 h5
    unfold check_is_fit_process_tree conformance_diagnostics_token_based_replay
      conformance_diagnostics_alignments
    dsimp only
    simp only [conformance_diagnostics_footprints_congr
      { E with
        token_replay := tbr'
        tree_align_apply := ta' } E rfl rfl,
      log_prelude_eventLog, h4, h5]

/-- Engines for the closed key-independence scenario: the model
arguments convert to the small hierarchical model. -/
def treeConvEngines : Engines :=
  { defaultEngines with convert_to_process_tree := fun _ => some exampleTree }

/-- Closed instance of the C10 theorem: the check's outcome is the
same under two different caller-supplied keys, and engines that differ
from the inert ones only away from the default configuration leave the
hierarchical cascade unchanged. -/
theorem hierarchical_path_ignores_activity_key_witness :
    treeConvEngines.convert_to_process_tree [MArg.other "bpmn"] = some exampleTree ∧
    check_is_fitting treeConvEngines (TrArg.traceA []) [MArg.other "bpmn"] "org:resource"
      = check_is_fitting treeConvEngines (TrArg.traceA []) [MArg.other "bpmn"]
          DEFAULT_NAME_KEY ∧
    check_is_fit_process_tree
      { defaultEngines with
        token_replay := fun l n i f p =>
          if p.activity_key == "org:resource" then [⟨true⟩]
          else defaultEngines.token_replay l n i f p
        tree_align_apply := fun l t2 p =>
          if p.activity_key == "org:resource" then [⟨0⟩]
          else defaultEngines.tree_align_apply l t2 p }
      [] exampleTree
      = check_is_fit_process_tree defaultEngines [] exampleTree :=
  ⟨rfl,
    hierarchical_path_ignores_activity_key.1 treeConvEngines [] [MArg.other "bpmn"]
      exampleTree "org:resource" DEFAULT_NAME_KEY rfl,
    hierarchical_path_ignores_activity_key.2.2 defaultEngines [] exampleTree
      (fun l n i f p =>
        if p.activity_key == "org:resource" then [⟨true⟩]
        else defaultEngines.token_replay l n i f p)
      (fun l t2 p =>
        if p.activity_key == "org:resource" then [⟨0⟩]
        else defaultEngines.tree_align_apply l t2 p)
      (fun _ _ _ _ => rfl) (fun _ _ => rfl)⟩

end Pm4py
